import Mathlib

/-!
Formal model of the preflight validation script (`validate.py`) of the
eBPF ransomware detector repository.

The script runs five checks (Python version, required files, BCC
availability, BPF compilation, root privilege) and aggregates the first
four into a process exit code.  We embed the script shallowly: the
environment the script reads (interpreter version, filesystem answers,
module-import results, BPF load result, effective uid) is a structure `Env`,
each check function is a Lean function from `Env` to a boolean result
paired with a trace of observable events (printed lines, import
attempts, BPF load invocations), and `main_run` transcribes `main`.
-/

/-- Observable events of a run: a line printed to standard output, an
attempt to import the bcc module, and an invocation of the BPF
compile/load constructor. -/
inductive Ev where
  | out (s : String)
  | tryImport
  | tryLoad
  deriving DecidableEq, Repr

/-- The environment readings the script can observe.  `fileExists` answers
`os.path.exists` during `check_files`; `compileSrcExists` answers the
defensive re-check of `bpf.c` inside `compile_bpf` (the file may have been
deleted in between); `bccAvailable` is whether `from bcc import BPF`
succeeds in `check_bcc`; `compileModImport` is the result of the same
statement repeated inside `compile_bpf` (it may raise even if the
earlier one succeeded); `bpfLoad` is what the `BPF(...)` constructor gives:
an exception message, or a handle modelled by its map-membership
function. -/
structure Env where
  major : Nat
  minor : Nat
  micro : Nat
  fileExists : String → Bool
  bccAvailable : Bool
  compileModImport : Except String Unit
  compileSrcExists : Bool
  bpfLoad : Except String (String → Bool)
  uid : Nat

/-- `check_root`: passes iff the effective uid is 0; informational only. -/
def check_root (env : Env) : Bool × List Ev :=
  if env.uid = 0 then
    (true, [.out "✓ Running as root (optional for validation)"])
  else
    (false, [.out "ℹ Not running as root (this is OK for validation)"])

/-- The version text printed by `check_python_version`. -/
def versionText (env : Env) : String :=
  toString env.major ++ "." ++ toString env.minor ++ "." ++ toString env.micro
    ++ " (requires 3.6+)"

/-- `check_python_version`: passes iff `version.major >= 3 and
version.minor >= 6`. -/
def check_python_version (env : Env) : Bool × List Ev :=
  if env.major ≥ 3 ∧ env.minor ≥ 6 then
    (true, [.out ("✓ Python " ++ versionText env)])
  else
    (false, [.out ("✗ Python " ++ versionText env)])

/-- `check_bcc`: attempts `from bcc import BPF`; passes iff it succeeds. -/
def check_bcc (env : Env) : Bool × List Ev :=
  if env.bccAvailable then
    (true, [.tryImport, .out "✓ BCC Python module available"])
  else
    (false, [.tryImport, .out "✗ BCC Python module not found",
             .out "  Install with: sudo apt-get install python3-bpfcc"])

/-- The hard-coded list of required files in `check_files`. -/
def required_files : List String := ["detector.py", "bpf.c", "bpf.h"]

/-- `check_files`: one existence test and one printed line per required
file; passes iff all exist (`all_exist` starts true and is cleared on any
missing file). -/
def check_files (env : Env) : Bool × List Ev :=
  required_files.foldl
    (fun acc file =>
      if env.fileExists file then
        (acc.1, acc.2 ++ [.out ("✓ " ++ file ++ " exists")])
      else
        (false, acc.2 ++ [.out ("✗ " ++ file ++ " not found")]))
    (true, [])

/-- The hard-coded list of required maps in `compile_bpf`. -/
def required_maps : List String :=
  ["config", "patterns", "threshold_patterns", "pidstats", "events"]

/-- The per-map line printed by `compile_bpf` for the handle `member`. -/
def mapLine (member : String → Bool) (m : String) : Ev :=
  if member m then .out ("  ✓ Map \x27" ++ m ++ "\x27 found")
  else .out ("  ✗ Map \x27" ++ m ++ "\x27 not found")

/-- `compile_bpf`: inside one `try`, import bcc, re-check that `bpf.c`
exists, invoke the `BPF` constructor, then report each required map's
presence; any exception from the import or the constructor is caught and
reported as `✗ BPF compilation failed: ...`.  Per-map presence does not
affect the returned boolean, which is true whenever the constructor
returned. -/
def compile_bpf (env : Env) : Bool × List Ev :=
  match env.compileModImport with
  | .error e => (false, [.tryImport, .out ("✗ BPF compilation failed: " ++ e)])
  | .ok _ =>
    if env.compileSrcExists then
      match env.bpfLoad with
      | .error e =>
        (false, [.tryImport, .out "Compiling BPF program...", .tryLoad,
                 .out ("✗ BPF compilation failed: " ++ e)])
      | .ok member =>
        (true, [.tryImport, .out "Compiling BPF program...", .tryLoad,
                .out "✓ BPF program compiled successfully"]
               ++ required_maps.map (mapLine member))
    else
      (false, [.tryImport, .out "✗ bpf.c not found"])

/-- The `"=" * 60` banner line. -/
def banner : String := String.mk (List.replicate 60 (Char.ofNat 61))

/-- The line printed when BPF compilation is skipped. -/
def skipMsg : String := "4. Skipping BPF compilation (prerequisites not met)"

/-- The final lines printed when `all(results)` holds. -/
def passTail : List Ev :=
  [Ev.out "✅ All validations passed!", Ev.out "",
   Ev.out "System is ready to run the detector:",
   Ev.out "  sudo python3 detector.py"]

/-- The final lines printed when some validation failed. -/
def failTail : List Ev :=
  [Ev.out "❌ Some validations failed", Ev.out "",
   Ev.out "Please fix the issues above before running the detector."]

/-- The result of one run of `main`: its return value (the process exit
status), the event trace, and the `results` list of booleans it
accumulated (four entries; `check_root`'s value is discarded). -/
structure RunResult where
  exitCode : Nat
  trace : List Ev
  results : List Bool
  deriving DecidableEq, Repr

/-- `main`: run the checks in order, gate `compile_bpf` on
`all(results[:3])`, append `False` for the skipped compilation, run
`check_root` without recording its value, and return 0 iff
`all(results)`. -/
def main_run (env : Env) : RunResult :=
  let o1 := check_python_version env
  let o2 := check_files env
  let o3 := check_bcc env
  let results3 := [o1.1, o2.1, o3.1]
  let block4 : List Ev × Bool :=
    if results3.all id then
      ([Ev.out "4. Compiling BPF program..."] ++ (compile_bpf env).2 ++ [Ev.out ""],
       (compile_bpf env).1)
    else
      ([Ev.out skipMsg, Ev.out ""], false)
  let results := results3 ++ [block4.2]
  let o5 := check_root env
  let body : List Ev :=
    [Ev.out banner, Ev.out "eBPF Ransomware Detector - Validation Script",
     Ev.out banner, Ev.out "", Ev.out "1. Checking Python version..."]
    ++ o1.2 ++ [Ev.out "", Ev.out "2. Checking required files..."]
    ++ o2.2 ++ [Ev.out "", Ev.out "3. Checking BCC availability..."]
    ++ o3.2 ++ [Ev.out ""]
    ++ block4.1
    ++ [Ev.out "5. Checking permissions..."]
    ++ o5.2 ++ [Ev.out "", Ev.out banner]
  if results.all id then
    { exitCode := 0, trace := body ++ passTail, results := results }
  else
    { exitCode := 1, trace := body ++ failTail, results := results }

/-- The gating condition `all(results[:3])` of `main`. -/
def gate (env : Env) : Bool :=
  (check_python_version env).1 && (check_files env).1 && (check_bcc env).1

/-- The spec-level ValidationReport: one outcome per defined check, in
order, where a skipped compilation contributes a synthetic failed
outcome. -/
def report (env : Env) : List (Bool × List Ev) :=
  [check_python_version env, check_files env, check_bcc env,
   if gate env then compile_bpf env else (false, [Ev.out skipMsg]),
   check_root env]

/-- The lines printed to standard output, extracted from a trace. -/
def outputOf (t : List Ev) : List String :=
  t.filterMap fun e => match e with
    | .out s => some s
    | _ => none

/-- Number of BPF constructor invocations in a trace. -/
def countLoads (t : List Ev) : Nat := t.count Ev.tryLoad

/-- Number of bcc import attempts in a trace. -/
def countImportTries (t : List Ev) : Nat := t.count Ev.tryImport

/-- Agreement of two BPF load results on everything the script can
observe: equal exception messages, or handles agreeing on the five
required map names. -/
def loadAgree : Except String (String → Bool) → Except String (String → Bool) → Prop
  | .error e1, .error e2 => e1 = e2
  | .ok m1, .ok m2 => ∀ t ∈ required_maps, m1 t = m2 t
  | _, _ => False

/-- Two environments that yield identical readings for every probe the
script performs: same version triple, same existence answers for the
three required files (at both probe times), same import results, same
load outcome up to the observed map names, same uid. -/
def EnvAgree (e1 e2 : Env) : Prop :=
  e1.major = e2.major ∧ e1.minor = e2.minor ∧ e1.micro = e2.micro
  ∧ (∀ f ∈ required_files, e1.fileExists f = e2.fileExists f)
  ∧ e1.bccAvailable = e2.bccAvailable
  ∧ e1.compileModImport = e2.compileModImport
  ∧ e1.compileSrcExists = e2.compileSrcExists
  ∧ loadAgree e1.bpfLoad e2.bpfLoad
  ∧ e1.uid = e2.uid

/-- A fully healthy environment, used to instantiate theorems. -/
def envAllGood : Env :=
  { major := 3, minor := 10, micro := 2,
    fileExists := fun _ => true,
    bccAvailable := true,
    compileModImport := Except.ok (),
    compileSrcExists := true,
    bpfLoad := Except.ok (fun _ => true),
    uid := 0 }

/-- A healthy environment whose probe header file is missing. -/
def envNoHdr : Env :=
  { envAllGood with fileExists := fun f => !(f == "bpf.h") }

/-- A healthy environment whose BPF constructor raises. -/
def envLoadFail : Env :=
  { envAllGood with bpfLoad := Except.error "invalid BPF source" }

/-- A healthy environment where the bcc import inside `compile_bpf`
raises even though `check_bcc` succeeded. -/
def envLateImpFail : Env :=
  { envAllGood with compileModImport := Except.error "libbcc gone" }

/-- A healthy environment where `bpf.c` disappears between `check_files`
and `compile_bpf`. -/
def envSrcGone : Env :=
  { envAllGood with compileSrcExists := false }

/-- A healthy environment whose loaded probe exposes none of the
required maps. -/
def envNoTables : Env :=
  { envAllGood with bpfLoad := Except.ok (fun _ => false), uid := 1000 }

/-- Same observable readings as `envAllGood`, but a different
`fileExists` function (differing only off the required files) and a
different handle function (differing only off the required maps). -/
def envShadow : Env :=
  { envAllGood with
    fileExists := fun f => !(f == "unrelated.txt"),
    bpfLoad := Except.ok (fun t => !(t == "zzz")) }

theorem list_all3 (a b c : Bool) : [a, b, c].all id = (a && b && c) := by
  cases a <;> cases b <;> cases c <;> rfl

theorem main_run_results_eq (env : Env) :
    (main_run env).results =
      [(check_python_version env).1, (check_files env).1, (check_bcc env).1,
       if gate env then (compile_bpf env).1 else false] := by
  cases h1 : (check_python_version env).1 <;>
    cases h2 : (check_files env).1 <;>
      cases h3 : (check_bcc env).1 <;>
        cases h4 : (compile_bpf env).1 <;>
          simp [main_run, gate, h1, h2, h3, h4]

theorem main_run_exit_eq (env : Env) :
    (main_run env).exitCode = if (main_run env).results.all id then 0 else 1 := by
  cases h1 : (check_python_version env).1 <;>
    cases h2 : (check_files env).1 <;>
      cases h3 : (check_bcc env).1 <;>
        cases h4 : (compile_bpf env).1 <;>
          simp [main_run, h1, h2, h3, h4]

theorem main_run_trace_eq (env : Env) :
    (main_run env).trace =
      [Ev.out banner, Ev.out "eBPF Ransomware Detector - Validation Script",
       Ev.out banner, Ev.out "", Ev.out "1. Checking Python version..."]
      ++ (check_python_version env).2
      ++ [Ev.out "", Ev.out "2. Checking required files..."]
      ++ (check_files env).2
      ++ [Ev.out "", Ev.out "3. Checking BCC availability..."]
      ++ (check_bcc env).2 ++ [Ev.out ""]
      ++ (if gate env then
            [Ev.out "4. Compiling BPF program..."] ++ (compile_bpf env).2
              ++ [Ev.out ""]
          else [Ev.out skipMsg, Ev.out ""])
      ++ [Ev.out "5. Checking permissions..."]
      ++ (check_root env).2 ++ [Ev.out "", Ev.out banner]
      ++ (if (main_run env).exitCode = 0 then passTail else failTail) := by
  cases h1 : (check_python_version env).1 <;>
    cases h2 : (check_files env).1 <;>
      cases h3 : (check_bcc env).1 <;>
        cases h4 : (compile_bpf env).1 <;>
          simp [main_run, gate, h1, h2, h3, h4, List.append_assoc]

theorem countLoads_append (s t : List Ev) :
    countLoads (s ++ t) = countLoads s + countLoads t :=
  List.count_append ..

theorem countImportTries_append (s t : List Ev) :
    countImportTries (s ++ t) = countImportTries s + countImportTries t :=
  List.count_append ..

theorem check_python_version_events (env : Env) :
    List.count Ev.tryLoad (check_python_version env).2 = 0
    ∧ List.count Ev.tryImport (check_python_version env).2 = 0 := by
  unfold check_python_version
  split <;> simp [countLoads, countImportTries]

theorem check_files_events (env : Env) :
    List.count Ev.tryLoad (check_files env).2 = 0
    ∧ List.count Ev.tryImport (check_files env).2 = 0 := by
  cases h1 : env.fileExists "detector.py" <;>
    cases h2 : env.fileExists "bpf.c" <;>
      cases h3 : env.fileExists "bpf.h" <;>
        simp [check_files, required_files, h1, h2, h3, countLoads,
          countImportTries]

theorem check_bcc_events (env : Env) :
    List.count Ev.tryLoad (check_bcc env).2 = 0
    ∧ List.count Ev.tryImport (check_bcc env).2 = 1 := by
  unfold check_bcc
  split <;> simp [countLoads, countImportTries]

theorem check_root_events (env : Env) :
    List.count Ev.tryLoad (check_root env).2 = 0
    ∧ List.count Ev.tryImport (check_root env).2 = 0 := by
  unfold check_root
  split <;> simp [countLoads, countImportTries]

theorem mapLine_events (member : String → Bool) (ms : List String) :
    countLoads (ms.map (mapLine member)) = 0
    ∧ countImportTries (ms.map (mapLine member)) = 0 := by
  induction ms with
  | nil => simp [countLoads, countImportTries]
  | cons m tl ih =>
    cases h : member m <;>
      simp [mapLine, h, countLoads, countImportTries, List.count_cons] <;>
        simp [countLoads, countImportTries] at ih <;> simp [ih]

theorem compile_bpf_events (env : Env) :
    countImportTries (compile_bpf env).2 = 1
    ∧ countLoads (compile_bpf env).2 ≤ 1 := by
  unfold compile_bpf
  cases hm : env.compileModImport with
  | error e => simp [countLoads, countImportTries]
  | ok u =>
    cases hs : env.compileSrcExists
    · simp [countLoads, countImportTries]
    · cases hl : env.bpfLoad with
      | error e => simp [countLoads, countImportTries]
      | ok member =>
        have h := mapLine_events member required_maps
        simp [countLoads, countImportTries, List.count_append,
          List.count_cons] at h ⊢
        omega

theorem check_files_congr {e1 e2 : Env}
    (h : ∀ f ∈ required_files, e1.fileExists f = e2.fileExists f) :
    check_files e1 = check_files e2 := by
  have h1 := h "detector.py" (by simp [required_files])
  have h2 := h "bpf.c" (by simp [required_files])
  have h3 := h "bpf.h" (by simp [required_files])
  simp [check_files, required_files, h1, h2, h3]

theorem compile_bpf_congr {e1 e2 : Env}
    (him : e1.compileModImport = e2.compileModImport)
    (hsrc : e1.compileSrcExists = e2.compileSrcExists)
    (hload : loadAgree e1.bpfLoad e2.bpfLoad) :
    compile_bpf e1 = compile_bpf e2 := by
  unfold compile_bpf
  rw [him, hsrc]
  cases hm : e2.compileModImport with
  | error e => rfl
  | ok u =>
    cases hs : e2.compileSrcExists
    · simp
    · simp only [if_pos rfl, Bool.true_eq]
      cases h1 : e1.bpfLoad <;> cases h2 : e2.bpfLoad <;>
        rw [h1, h2] at hload <;> simp [loadAgree] at hload <;>
          simp [loadAgree]
      · rw [hload]
      · have hc := hload "config" (by simp [required_maps])
        have hp := hload "patterns" (by simp [required_maps])
        have ht := hload "threshold_patterns" (by simp [required_maps])
        have hs := hload "pidstats" (by simp [required_maps])
        have he := hload "events" (by simp [required_maps])
        simp [required_maps, mapLine, hc, hp, ht, hs, he]

theorem main_run_congr {e1 e2 : Env} (hA : EnvAgree e1 e2) :
    main_run e1 = main_run e2 := by
  obtain ⟨hmaj, hmin, hmic, hfs, hbcc, him, hsrc, hload, huid⟩ := hA
  have h1 : check_python_version e1 = check_python_version e2 := by
    unfold check_python_version versionText
    rw [hmaj, hmin, hmic]
  have h2 := check_files_congr hfs
  have h3 : check_bcc e1 = check_bcc e2 := by
    unfold check_bcc
    rw [hbcc]
  have h4 := compile_bpf_congr him hsrc hload
  have h5 : check_root e1 = check_root e2 := by
    unfold check_root
    rw [huid]
  unfold main_run
  rw [h1, h2, h3, h4, h5]

theorem infix_here {α : Type} (t B : List α) : List.IsInfix t (t ++ B) :=
  ⟨[], B, rfl⟩

theorem infix_single {α : Type} (a : α) (M : List α) :
    List.IsInfix [a] (a :: M) :=
  ⟨[], M, rfl⟩

theorem infix_cons {α : Type} (a : α) {t M : List α}
    (h : List.IsInfix t M) : List.IsInfix t (a :: M) := by
  obtain ⟨s, u, rfl⟩ := h
  exact ⟨a :: s, u, rfl⟩

theorem infix_skip {α : Type} (A : List α) {t M : List α}
    (h : List.IsInfix t M) : List.IsInfix t (A ++ M) := by
  obtain ⟨s, u, rfl⟩ := h
  exact ⟨A ++ s, u, by simp [List.append_assoc]⟩

/-- C4: RuntimeVersionCheck passes iff major ≥ 3 and minor ≥ 6
(conjunction of the two independent threshold tests); in particular it
passes whenever maj ≥ 3 and min ≥ 6, and fails whenever maj < 3. -/
theorem version_check_spec (env : Env) :
    ((check_python_version env).1 = true ↔ (3 ≤ env.major ∧ 6 ≤ env.minor))
    ∧ (3 ≤ env.major → 6 ≤ env.minor → (check_python_version env).1 = true)
    ∧ (env.major < 3 → (check_python_version env).1 = false) := by
  by_cases h : env.major ≥ 3 ∧ env.minor ≥ 6 <;>
    simp [check_python_version, h] <;> omega

/-- Witness for C4: Python 3.10.2 passes, Python 2.7.18 fails. -/
theorem version_check_spec_witness :
    (check_python_version envAllGood).1 = true
    ∧ (check_python_version
        { envAllGood with major := 2, minor := 7, micro := 18 }).1 = false :=
  ⟨(version_check_spec envAllGood).2.1 (by decide) (by decide),
   (version_check_spec
      { envAllGood with major := 2, minor := 7, micro := 18 }).2.2 (by decide)⟩

/-- C8: for every version triple with major ≥ 4 and minor < 6 the check
fails: the two thresholds are tested independently, not
lexicographically. -/
theorem version_check_new_major_old_minor (env : Env) (h1 : 4 ≤ env.major)
    (h2 : env.minor < 6) : (check_python_version env).1 = false := by
  have h : ¬(env.major ≥ 3 ∧ env.minor ≥ 6) := by omega
  simp [check_python_version, h]

/-- Witness for C8: Python 4.0 is rejected. -/
theorem version_check_new_major_old_minor_witness :
    (check_python_version { envAllGood with major := 4, minor := 0 }).1 = false :=
  version_check_new_major_old_minor { envAllGood with major := 4, minor := 0 }
    (by decide) (by decide)

/-- C6: ArtifactPresenceCheck passes iff all three required artifacts
exist, and it emits exactly one found/not-found line per artifact. -/
theorem files_check_spec (env : Env) :
    ((check_files env).1 = true ↔ ∀ f ∈ required_files, env.fileExists f = true)
    ∧ (check_files env).2 = required_files.map (fun f =>
        if env.fileExists f then Ev.out ("✓ " ++ f ++ " exists")
        else Ev.out ("✗ " ++ f ++ " not found")) := by
  cases h1 : env.fileExists "detector.py" <;>
    cases h2 : env.fileExists "bpf.c" <;>
      cases h3 : env.fileExists "bpf.h" <;>
        simp [check_files, required_files, h1, h2, h3]

/-- Witness for C6: with only the header missing, the three lines name
exactly the missing artifact. -/
theorem files_check_spec_witness :
    (check_files envNoHdr).2 =
      [Ev.out "✓ detector.py exists", Ev.out "✓ bpf.c exists",
       Ev.out "✗ bpf.h not found"] := by
  rw [(files_check_spec envNoHdr).2]
  decide

/-- C5: when compilation executes and the load step succeeds, the check
passes for every map-membership function, with the per-map results
reported only as informational lines. -/
theorem compile_pass_ignores_tables (env : Env) (member : String → Bool)
    (h1 : env.compileModImport = Except.ok ())
    (h2 : env.compileSrcExists = true)
    (h3 : env.bpfLoad = Except.ok member) :
    (compile_bpf env).1 = true
    ∧ (compile_bpf env).2 =
        [Ev.tryImport, Ev.out "Compiling BPF program...", Ev.tryLoad,
         Ev.out "✓ BPF program compiled successfully"]
        ++ required_maps.map (mapLine member) := by
  simp [compile_bpf, h1, h2, h3]

/-- Witness for C5: the check passes even when none of the five maps is
present on the handle. -/
theorem compile_pass_ignores_tables_witness :
    (compile_bpf envNoTables).1 = true :=
  (compile_pass_ignores_tables envNoTables (fun _ => false) rfl rfl rfl).1

/-- C7: an exception from the load step is caught at the check boundary,
reported with its description, and the orchestrator still runs the
privilege check and returns exit code 1. -/
theorem compile_exception_contained (env : Env) (e : String)
    (h1 : env.compileModImport = Except.ok ())
    (h2 : env.compileSrcExists = true)
    (h3 : env.bpfLoad = Except.error e)
    (hg : gate env = true) :
    (compile_bpf env).1 = false
    ∧ Ev.out ("✗ BPF compilation failed: " ++ e) ∈ (compile_bpf env).2
    ∧ (main_run env).exitCode = 1
    ∧ Ev.out "5. Checking permissions..." ∈ (main_run env).trace := by
  have hc : compile_bpf env =
      (false, [Ev.tryImport, Ev.out "Compiling BPF program...", Ev.tryLoad,
               Ev.out ("✗ BPF compilation failed: " ++ e)]) := by
    simp [compile_bpf, h1, h2, h3]
  refine ⟨by simp [hc], by simp [hc], ?_, ?_⟩
  · rw [main_run_exit_eq, main_run_results_eq]
    simp [hg, hc]
  · rw [main_run_trace_eq]
    simp

/-- Witness for C7: a concrete load failure yields a failed outcome, the
error text, exit code 1, and the run continues to check 5. -/
theorem compile_exception_contained_witness :
    (compile_bpf envLoadFail).1 = false
    ∧ Ev.out ("✗ BPF compilation failed: " ++ "invalid BPF source")
        ∈ (compile_bpf envLoadFail).2
    ∧ (main_run envLoadFail).exitCode = 1
    ∧ Ev.out "5. Checking permissions..." ∈ (main_run envLoadFail).trace :=
  compile_exception_contained envLoadFail "invalid BPF source" rfl rfl rfl
    (by decide)

/-- C9: `compile_bpf` is total at its boundary — the run always ends with
exit code 0 or 1, an exception from the import inside the check yields a
failed outcome carrying its description, and a vanished `bpf.c` yields
the defensive failed outcome. -/
theorem compile_total_boundary (env : Env) :
    ((main_run env).exitCode = 0 ∨ (main_run env).exitCode = 1)
    ∧ (∀ e, env.compileModImport = Except.error e →
        compile_bpf env =
          (false, [Ev.tryImport, Ev.out ("✗ BPF compilation failed: " ++ e)]))
    ∧ (∀ u, env.compileModImport = Except.ok u →
        env.compileSrcExists = false →
        compile_bpf env = (false, [Ev.tryImport, Ev.out "✗ bpf.c not found"])) := by
  refine ⟨?_, ?_, ?_⟩
  · rw [main_run_exit_eq]
    split <;> simp
  · intro e he
    simp [compile_bpf, he]
  · intro u hu hs
    simp [compile_bpf, hu, hs]

/-- Witness for C9: the import raising inside the check (after
`check_bcc` succeeded) and a deleted `bpf.c` both give failed outcomes. -/
theorem compile_total_boundary_witness :
    compile_bpf envLateImpFail =
      (false, [Ev.tryImport,
        Ev.out ("✗ BPF compilation failed: " ++ "libbcc gone")])
    ∧ compile_bpf envSrcGone =
        (false, [Ev.tryImport, Ev.out "✗ bpf.c not found"]) :=
  ⟨(compile_total_boundary envLateImpFail).2.1 "libbcc gone" rfl,
   (compile_total_boundary envSrcGone).2.2 () rfl rfl⟩

/-- C1: the exit status is 0 iff the four gating results (with the
skipped compilation recorded as false) are all true, it is 1 otherwise,
and the effective uid — hence PrivilegeInfoCheck's result — never
changes it. -/
theorem exit_code_spec (env : Env) :
    ((main_run env).exitCode =
      if ((check_python_version env).1 && (check_files env).1
          && (check_bcc env).1
          && (if gate env then (compile_bpf env).1 else false)) then 0 else 1)
    ∧ (main_run env).results =
        [(check_python_version env).1, (check_files env).1, (check_bcc env).1,
         if gate env then (compile_bpf env).1 else false]
    ∧ (∀ u : Nat, (main_run { env with uid := u }).exitCode
        = (main_run env).exitCode) := by
  refine ⟨?_, main_run_results_eq env, ?_⟩
  · rw [main_run_exit_eq, main_run_results_eq]
    rcases hg : gate env <;>
      cases h1 : (check_python_version env).1 <;>
        cases h2 : (check_files env).1 <;>
          cases h3 : (check_bcc env).1 <;>
            cases h4 : (compile_bpf env).1 <;>
              simp [hg]
  · intro u
    rw [main_run_exit_eq { env with uid := u }, main_run_exit_eq env,
      main_run_results_eq { env with uid := u }, main_run_results_eq env]
    rfl

/-- Witness for C1: all four gating checks pass while running
unprivileged (uid 1000) and with no maps present, and the exit code is
still 0. -/
theorem exit_code_spec_witness : (main_run envNoTables).exitCode = 0 := by
  rw [(exit_code_spec envNoTables).1]
  decide

/-- C10: two runs observing identical environment readings (same version
triple, same existence answers for the required files, same import
results, same load outcome up to the five observed map names, same uid)
print the same report lines and return the same exit code. -/
theorem run_deterministic (e1 e2 : Env) (h : EnvAgree e1 e2) :
    (main_run e1).exitCode = (main_run e2).exitCode
    ∧ outputOf (main_run e1).trace = outputOf (main_run e2).trace := by
  rw [main_run_congr h]
  exact ⟨rfl, rfl⟩

/-- Witness for C10: an environment whose filesystem function and probe
handle differ from `envAllGood` only off the observed names produces the
same exit code. -/
theorem run_deterministic_witness :
    (main_run envShadow).exitCode = (main_run envAllGood).exitCode := by
  have hload : loadAgree envShadow.bpfLoad envAllGood.bpfLoad := by
    show ∀ t ∈ required_maps, (!(t == "zzz")) = true
    decide
  exact (run_deterministic envShadow envAllGood
    ⟨rfl, rfl, rfl, by decide, rfl, rfl, rfl, hload, rfl⟩).1

/-- C3: if any of the first three checks fails, the BPF constructor is
never invoked and the fourth recorded result is the synthetic failure
with the prerequisites message; if all three pass, the compilation check
runs exactly once — its event block appears once in the trace, with its
single import attempt, and no load attempt occurs outside it. -/
theorem compile_gating (env : Env) :
    (gate env = false →
      countLoads (main_run env).trace = 0
      ∧ (main_run env).results =
          [(check_python_version env).1, (check_files env).1,
           (check_bcc env).1, false]
      ∧ Ev.out skipMsg ∈ (main_run env).trace)
    ∧ (gate env = true →
      ∃ A B, (main_run env).trace = A ++ ((compile_bpf env).2 ++ B)
        ∧ countLoads A = 0 ∧ countLoads B = 0
        ∧ countImportTries A = 1 ∧ countImportTries B = 0
        ∧ countImportTries (compile_bpf env).2 = 1) := by
  constructor
  · intro hg
    refine ⟨?_, ?_, ?_⟩
    · rw [main_run_trace_eq]
      simp [hg, countLoads, (check_python_version_events env).1,
        (check_files_events env).1, (check_bcc_events env).1,
        (check_root_events env).1]
      split <;> decide
    · rw [main_run_results_eq]
      simp [hg]
    · rw [main_run_trace_eq]
      simp [hg]
  · intro hg
    refine ⟨[Ev.out banner, Ev.out "eBPF Ransomware Detector - Validation Script",
             Ev.out banner, Ev.out "", Ev.out "1. Checking Python version..."]
            ++ (check_python_version env).2
            ++ [Ev.out "", Ev.out "2. Checking required files..."]
            ++ (check_files env).2
            ++ [Ev.out "", Ev.out "3. Checking BCC availability..."]
            ++ (check_bcc env).2
            ++ [Ev.out "", Ev.out "4. Compiling BPF program..."],
            [Ev.out "", Ev.out "5. Checking permissions..."]
            ++ (check_root env).2 ++ [Ev.out "", Ev.out banner]
            ++ (if (main_run env).exitCode = 0 then passTail else failTail),
            ?_, ?_, ?_, ?_, ?_, ?_⟩
    · rw [main_run_trace_eq]
      simp [hg, List.append_assoc]
    · simp [countLoads, (check_python_version_events env).1,
        (check_files_events env).1, (check_bcc_events env).1]
    · simp [countLoads, (check_root_events env).1]
      split <;> decide
    · simp [countImportTries, (check_python_version_events env).2,
        (check_files_events env).2, (check_bcc_events env).2]
    · simp [countImportTries, (check_root_events env).2]
      split <;> decide
    · exact (compile_bpf_events env).1

/-- Witness for C3: with the header missing the skip branch is taken and
no load occurs; with everything healthy the compilation block carries
exactly one import attempt. -/
theorem compile_gating_witness :
    (countLoads (main_run envNoHdr).trace = 0
      ∧ Ev.out skipMsg ∈ (main_run envNoHdr).trace)
    ∧ countImportTries (compile_bpf envAllGood).2 = 1 := by
  have h1 := (compile_gating envNoHdr).1 (by decide)
  have h2 := (compile_gating envAllGood).2 (by decide)
  obtain ⟨A, B, hAB⟩ := h2
  exact ⟨⟨h1.1, h1.2.2⟩, hAB.2.2.2.2.2⟩

/-- C2: the report has exactly five outcomes, one per defined check; the
orchestrator's four recorded booleans are exactly the first four
outcomes' flags; a skipped compilation appears as the synthetic failed
outcome with the prerequisites message; the privilege check's outcome is
the fifth entry; and every outcome's message block occurs inside the
emitted trace. -/
theorem report_five_outcomes (env : Env) :
    (report env).length = 5
    ∧ (main_run env).results = ((report env).take 4).map Prod.fst
    ∧ (gate env = false →
        report env = [check_python_version env, check_files env, check_bcc env,
          (false, [Ev.out skipMsg]), check_root env])
    ∧ (∀ o ∈ report env, List.IsInfix o.2 (main_run env).trace) := by
  refine ⟨rfl, ?_, ?_, ?_⟩
  · rw [main_run_results_eq]
    rcases hg : gate env <;> simp [report, hg]
  · intro hgf
    simp [report, hgf]
  · intro o ho
    rw [main_run_trace_eq]
    rcases hg : gate env <;>
      simp only [report, hg, Bool.false_eq_true, if_false, if_true,
        List.mem_cons, List.not_mem_nil, or_false] at ho ⊢ <;>
      rcases ho with rfl | rfl | rfl | rfl | rfl <;>
      simp only [List.append_assoc, List.cons_append, List.nil_append,
        List.singleton_append] <;>
      (repeat first
        | exact infix_here _ _
        | exact infix_single _ _
        | apply infix_cons
        | apply infix_skip)

/-- Witness for C2: in the healthy run the privilege outcome is a member
of the report and its lines occur inside the emitted trace. -/
theorem report_five_outcomes_witness :
    List.IsInfix (check_root envAllGood).2 (main_run envAllGood).trace :=
  (report_five_outcomes envAllGood).2.2.2 (check_root envAllGood)
    (by simp [report])
